import Mathlib

/-!
Verification of the hlandau/service repository (service supervision and
lifecycle library) against its natural-language specification.

The embedding models the Go sources shallowly:

* Process identity observable through the syscall package (getuid, geteuid,
  getgid, getegid) is a `SysState`.
* Kernel- and libc-level calls (set*id, setgroups, chroot, chdir, libcap
  operations, passwd-database lookups) are outside the program text; they are
  modelled as an oracle structure `Kernel` of explicit functions.  Calls that
  can fail return `Except String`; a failing call leaves the state unchanged
  (the caller keeps the state it already had).
* Go error values are modelled as `Option String` (none = nil error).  Where
  the original message text contains punctuation this file cannot carry, the
  message is abbreviated; no claim depends on exact message text.
* Each privilege-pipeline function additionally records a trace of the
  externally visible calls it performs (`List Ev`), used for ordering claims.

The repository contains several parallel revisions of the same package.
Namespaces used below:
* `V1`  — src/daemon/daemon.go (service.v1 daemon)
* `V1b` — src/unnamed/part_008 (a second v1-era daemon revision)
* `V3`  — src/daemon/droppriv.go (the daemon used by the v3 supervisor)
* `Svc3`— src/unnamed/part_013 + src/service.go (the v3 supervisor)
-/

namespace Service

/-- Process identity state visible through syscall.Getuid / Geteuid /
Getgid / Getegid. -/
structure SysState where
  uid : Int
  euid : Int
  gid : Int
  egid : Int
  deriving Repr, DecidableEq

/-- Externally visible calls recorded while the privilege pipeline runs. -/
inductive Ev where
  | bansuidCall
  | chrootCall
  | setgroupsCall
  | setresgidCall
  | setresuidCall
  | chdirCall
  | verify
  | capsDropCall
  deriving Repr, DecidableEq

/-- Oracle for everything outside the program text: kernel syscalls, libcap,
and the passwd database.  Each member is an arbitrary but fixed function, so
theorems quantifying over `Kernel` hold for every possible environment
behaviour. -/
structure Kernel where
  setgroups : List Int → SysState → Except String SysState
  setresgid : Int → Int → Int → SysState → Except String SysState
  setresuid : Int → Int → Int → SysState → Except String SysState
  setuid : Int → SysState → Except String SysState
  setgid : Int → SysState → Except String SysState
  chroot : String → SysState → Except String SysState
  chdir : String → SysState → Except String SysState
  capsHaveAny : SysState → Bool
  capsDrop : SysState → Except String SysState
  getExtraGIDs : Int → Except String (List Int)
  primaryGID : Int → Except String Int
  lookupUser : String → Except String Int
  lookupGroup : String → Except String Int
  banSuid : SysState → SysState
  go15bug : Bool
  platformSupportsCaps : Bool

/-- Result of one pipeline step: a Go error (none = nil), the state after the
step, and the calls performed. -/
structure StepRes where
  err : Option String
  st : SysState
  tr : List Ev
  deriving Repr, DecidableEq

/-- Result of a drop-privileges function returning the Go pair
(chrootErr, err), plus state and trace. -/
structure DropRes where
  chrootErr : Option String
  err : Option String
  st : SysState
  tr : List Ev
  deriving Repr, DecidableEq

/-- Test used by `Except.isOk`-style checks below. -/
def exceptOk {α β : Type} : Except α β → Bool
  | .ok _ => true
  | .error _ => false

/-- Embeds isRoot (src/daemon/droppriv.go line 164, identical in daemon.go and
part_008): true iff any of the four ids is zero. -/
def isRoot (st : SysState) : Bool :=
  st.uid == 0 || st.euid == 0 || st.gid == 0 || st.egid == 0

/-- Embeds IsRoot (src/daemon/droppriv.go line 160, identical in part_008):
any capability present, or any id zero. -/
def IsRoot (k : Kernel) (st : SysState) : Bool :=
  k.capsHaveAny st || isRoot st

/-- Embeds tryChroot (src/daemon/droppriv.go line 110; textually identical in
daemon.go and part_008).  The resolver warm-up is a no-op whose errors are
ignored, so it does not appear in the model.  The chroot call itself
(svcutils chroot.Chroot resp. syscall.Chroot) is the kernel oracle. -/
def tryChroot (k : Kernel) (path : String) (st : SysState) : StepRes :=
  let path := if path = "/" then "" else path
  if path = "" then ⟨none, st, []⟩
  else
    match k.chroot path st with
    | .ok st1 => ⟨none, st1, [.chrootCall]⟩
    | .error e => ⟨some e, st, [.chrootCall]⟩

/-- Embeds ensureNoPrivs (src/daemon/droppriv.go line 136, identical in
part_008 line 133): fail if IsRoot, fail if setuid(0) succeeds, fail if
setgid(0) succeeds.  Emits the `verify` event. -/
def ensureNoPrivs (k : Kernel) (st : SysState) : StepRes :=
  if IsRoot k st then
    ⟨some "still have non-zero UID or GID or capabilities", st, [.verify]⟩
  else
    match k.setuid 0 st with
    | .ok st1 => ⟨some "cannot drop privileges - setuid(0) still succeeded", st1, [.verify]⟩
    | .error _ =>
      match k.setgid 0 st with
      | .ok st1 => ⟨some "cannot drop privileges - setgid(0) still succeeded", st1, [.verify]⟩
      | .error _ => ⟨none, st, [.verify]⟩

namespace V3

/-- Embeds tryDropPrivileges (src/daemon/droppriv.go line 80): reject
non-positive ids, reject the Go 1.5/1.5.1 toolchain, then
setgroups, setresgid, setresuid. -/
def tryDropPrivileges (k : Kernel) (UID GID : Int) (gids : List Int)
    (st : SysState) : StepRes :=
  if decide (UID ≤ 0) || decide (GID ≤ 0) then
    ⟨some "invalid UID/GID specified so cannot setuid/setgid", st, []⟩
  else if k.go15bug then
    ⟨some "cannot drop privileges on Linux using Go 1.5 or 1.5.1", st, []⟩
  else
    match k.setgroups gids st with
    | .error e => ⟨some e, st, [.setgroupsCall]⟩
    | .ok st1 =>
      match k.setresgid GID GID GID st1 with
      | .error e => ⟨some e, st1, [.setgroupsCall, .setresgidCall]⟩
      | .ok st2 =>
        match k.setresuid UID UID UID st2 with
        | .error e => ⟨some e, st2, [.setgroupsCall, .setresgidCall, .setresuidCall]⟩
        | .ok st3 => ⟨none, st3, [.setgroupsCall, .setresgidCall, .setresuidCall]⟩

/-- Embeds dropPrivileges (src/daemon/droppriv.go line 51): sign check,
supplementary-gid computation when UID is positive, chroot attempt (result
recorded separately), then the identity change when UID is positive. -/
def dropPrivileges (k : Kernel) (UID GID : Int) (chrootDir : String)
    (st : SysState) : DropRes :=
  if decide (UID ≤ 0) != decide (GID ≤ 0) then
    ⟨none, some "either both or neither UID and GID must be set to positive values", st, []⟩
  else if decide (UID > 0) then
    match k.getExtraGIDs GID with
    | .error e => ⟨none, some e, st, []⟩
    | .ok gs =>
      let gids := gs ++ [GID]
      let c := tryChroot k chrootDir st
      let d := tryDropPrivileges k UID GID gids c.st
      ⟨c.err, d.err, d.st, c.tr ++ d.tr⟩
  else
    let c := tryChroot k chrootDir st
    ⟨c.err, none, c.st, c.tr⟩

/-- Embeds DropPrivileges (src/daemon/droppriv.go line 29): run
dropPrivileges, then chdir to the root, then the ensureNoPrivs
verification. -/
def DropPrivileges (k : Kernel) (UID GID : Int) (chrootDir : String)
    (st : SysState) : DropRes :=
  let r := dropPrivileges k UID GID chrootDir st
  match r.err with
  | some e => ⟨r.chrootErr, some ("dropPrivileges failed: " ++ e), r.st, r.tr⟩
  | none =>
    match k.chdir "/" r.st with
    | .error e => ⟨r.chrootErr, some e, r.st, r.tr ++ [.chdirCall]⟩
    | .ok st1 =>
      let v := ensureNoPrivs k st1
      match v.err with
      | some e =>
        ⟨r.chrootErr, some ("ensure no privs failed: " ++ e), v.st,
          r.tr ++ [.chdirCall] ++ v.tr⟩
      | none => ⟨r.chrootErr, none, v.st, r.tr ++ [.chdirCall] ++ v.tr⟩

end V3

namespace V1b

/-- Embeds tryDropPrivileges (src/unnamed/part_008 line 84): like the V3
version but without the Go toolchain check. -/
def tryDropPrivileges (k : Kernel) (UID GID : Int) (gids : List Int)
    (st : SysState) : StepRes :=
  if decide (UID ≤ 0) || decide (GID ≤ 0) then
    ⟨some "invalid UID/GID specified so cannot setuid/setgid", st, []⟩
  else
    match k.setgroups gids st with
    | .error e => ⟨some e, st, [.setgroupsCall]⟩
    | .ok st1 =>
      match k.setresgid GID GID GID st1 with
      | .error e => ⟨some e, st1, [.setgroupsCall, .setresgidCall]⟩
      | .ok st2 =>
        match k.setresuid UID UID UID st2 with
        | .error e => ⟨some e, st2, [.setgroupsCall, .setresgidCall, .setresuidCall]⟩
        | .ok st3 => ⟨none, st3, [.setgroupsCall, .setresgidCall, .setresuidCall]⟩

/-- Embeds the capability block of dropPrivileges (src/unnamed/part_008
lines 72-79): on capability-supporting platforms, drop all capabilities and
fail the drop if that fails. -/
def capsBlock (k : Kernel) (chrootErr : Option String) (st : SysState)
    (tr : List Ev) : DropRes :=
  if k.platformSupportsCaps then
    match k.capsDrop st with
    | .error e => ⟨chrootErr, some ("cannot drop caps: " ++ e), st, tr ++ [.capsDropCall]⟩
    | .ok st1 => ⟨chrootErr, none, st1, tr ++ [.capsDropCall]⟩
  else ⟨chrootErr, none, st, tr⟩

/-- Embeds dropPrivileges (src/unnamed/part_008 line 48): sign check,
supplementary gids, chroot attempt, identity change when UID positive, then
the capability block. -/
def dropPrivileges (k : Kernel) (UID GID : Int) (chrootDir : String)
    (st : SysState) : DropRes :=
  if decide (UID ≤ 0) != decide (GID ≤ 0) then
    ⟨none, some "either both or neither UID and GID must be set to positive values", st, []⟩
  else if decide (UID > 0) then
    match k.getExtraGIDs GID with
    | .error e => ⟨none, some e, st, []⟩
    | .ok gs =>
      let gids := gs ++ [GID]
      let c := tryChroot k chrootDir st
      let d := tryDropPrivileges k UID GID gids c.st
      match d.err with
      | some e => ⟨c.err, some e, d.st, c.tr ++ d.tr⟩
      | none => capsBlock k c.err d.st (c.tr ++ d.tr)
  else
    let c := tryChroot k chrootDir st
    capsBlock k c.err c.st c.tr

/-- Embeds DropPrivileges (src/unnamed/part_008 line 26): dropPrivileges,
chdir, ensureNoPrivs — same wrapper text as in droppriv.go. -/
def DropPrivileges (k : Kernel) (UID GID : Int) (chrootDir : String)
    (st : SysState) : DropRes :=
  let r := dropPrivileges k UID GID chrootDir st
  match r.err with
  | some e => ⟨r.chrootErr, some ("dropPrivileges failed: " ++ e), r.st, r.tr⟩
  | none =>
    match k.chdir "/" r.st with
    | .error e => ⟨r.chrootErr, some e, r.st, r.tr ++ [.chdirCall]⟩
    | .ok st1 =>
      let v := ensureNoPrivs k st1
      match v.err with
      | some e =>
        ⟨r.chrootErr, some ("ensure no privs failed: " ++ e), v.st,
          r.tr ++ [.chdirCall] ++ v.tr⟩
      | none => ⟨r.chrootErr, none, v.st, r.tr ++ [.chdirCall] ++ v.tr⟩

end V1b

namespace V1

/-- Message of errZeroUID (src/daemon/daemon.go line 218). -/
def errZeroUID : String :=
  "cannot drop privileges to UID/GID0 - did you set the UID/GID properly?"

/-- Embeds tryDropPrivileges (src/daemon/daemon.go line 220): reject the -1
sentinel, perform setgroups, setresgid, setresuid, and only afterwards reject
a zero UID or GID with errZeroUID. -/
def tryDropPrivileges (k : Kernel) (UID GID : Int) (gids : List Int)
    (st : SysState) : StepRes :=
  if decide (UID = -1) then
    ⟨some "invalid UID specified so cannot setuid", st, []⟩
  else
    match k.setgroups gids st with
    | .error e => ⟨some e, st, [.setgroupsCall]⟩
    | .ok st1 =>
      match k.setresgid GID GID GID st1 with
      | .error e => ⟨some e, st1, [.setgroupsCall, .setresgidCall]⟩
      | .ok st2 =>
        match k.setresuid UID UID UID st2 with
        | .error e => ⟨some e, st2, [.setgroupsCall, .setresgidCall, .setresuidCall]⟩
        | .ok st3 =>
          if decide (UID = 0) || decide (GID = 0) then
            ⟨some errZeroUID, st3, [.setgroupsCall, .setresgidCall, .setresuidCall]⟩
          else ⟨none, st3, [.setgroupsCall, .setresgidCall, .setresuidCall]⟩

end V1

/-! ### passwd package (src/passwd/passwd.go)

strconv.ParseUint(s, 10, 31) is modelled by `parseUint31`: a non-empty
all-digit string whose value fits in 31 bits.  Name lookups go through the
platform passwd database, i.e. the kernel oracle. -/

/-- Decimal parse of a digit string; none on empty or non-digit input. -/
def parseDecimal (s : String) : Option Nat :=
  if s.data.isEmpty then none
  else
    s.data.foldl
      (fun acc c =>
        match acc with
        | none => none
        | some n => if c.isDigit then some (n * 10 + (c.toNat - 48)) else none)
      (some 0)

/-- Embeds strconv.ParseUint(s, 10, 31) as used by ParseUID/ParseGID. -/
def parseUint31 (s : String) : Option Nat :=
  match parseDecimal s with
  | some n => if n < 2147483648 then some n else none
  | none => none

/-- Embeds passwd.ParseUID (src/passwd/passwd.go line 11): numeric parse,
falling back to a username lookup. -/
def ParseUID (k : Kernel) (s : String) : Except String Int :=
  match parseUint31 s with
  | some n => .ok (n : Int)
  | none => k.lookupUser s

/-- Embeds passwd.ParseGID (src/passwd/passwd.go line 21): numeric parse,
falling back to a group-name lookup. -/
def ParseGID (k : Kernel) (s : String) : Except String Int :=
  match parseUint31 s with
  | some n => .ok (n : Int)
  | none => k.lookupGroup s

/-- Embeds passwd.GetGIDForUID (src/passwd/passwd.go line 31 with the cgo
backend of src/passwd/passwd-nc.go): parse the UID, then look up its primary
GID in the passwd database. -/
def GetGIDForUID (k : Kernel) (uid : String) : Except String Int :=
  match ParseUID k uid with
  | .error e => .error e
  | .ok n => k.primaryGID n

namespace Svc3

/-- Unix-relevant fields of service Config (src/service.go line 106). -/
structure Config where
  UID : String
  GID : String
  Chroot : String
  deriving Repr, DecidableEq

/-- Fields of service Info used by the v3 ihandler.DropPrivileges
(src/service.go line 153). -/
structure Info where
  AllowRoot : Bool
  DefaultChroot : String
  NoBanSuid : Bool
  Config : Config
  deriving Repr, DecidableEq

/-- Result of ihandler.DropPrivileges: error, new dropped flag, state,
trace. -/
structure HRes where
  err : Option String
  dropped : Bool
  st : SysState
  tr : List Ev
  deriving Repr, DecidableEq

/-- Embeds the tail of ihandler.DropPrivileges (src/unnamed/part_013 lines
166-177): drop remaining capabilities, enforce the AllowRoot policy, set the
dropped flag. -/
def finishDrop (k : Kernel) (info : Info) (st : SysState) (tr : List Ev) : HRes :=
  match k.capsDrop st with
  | .error e => ⟨some ("cannot drop caps: " ++ e), false, st, tr ++ [.capsDropCall]⟩
  | .ok st1 =>
    if !info.AllowRoot && IsRoot k st1 then
      ⟨some "daemon must not run as root or with capabilities", false, st1,
        tr ++ [.capsDropCall]⟩
    else ⟨none, true, st1, tr ++ [.capsDropCall]⟩

/-- Embeds lines 150-164 of ihandler.DropPrivileges (src/unnamed/part_013)
applied after the fixups: sign check, the daemon drop when the uid is
positive with the chroot-error policy, the chroot-without-drop rejection,
then `finishDrop`. -/
def dropCore (k : Kernel) (info : Info) (uid gid : Int) (chrootPath : String)
    (st0 : SysState) (tr0 : List Ev) : HRes :=
  if decide (uid ≤ 0) != decide (gid ≤ 0) then
    ⟨some "either both or neither of the UID and GID must be positive",
      false, st0, tr0⟩
  else if decide (uid > 0) then
    match V3.DropPrivileges k uid gid chrootPath st0 with
    | ⟨_, some e, st1, tr1⟩ =>
      ⟨some ("failed to drop privileges: " ++ e), false, st1, tr0 ++ tr1⟩
    | ⟨some ce, none, st1, tr1⟩ =>
      if info.Config.Chroot ≠ "" ∧ info.Config.Chroot ≠ "/" then
        ⟨some ("failed to chroot: " ++ ce), false, st1, tr0 ++ tr1⟩
      else finishDrop k info st1 (tr0 ++ tr1)
    | ⟨none, none, st1, tr1⟩ => finishDrop k info st1 (tr0 ++ tr1)
  else if info.Config.Chroot ≠ "" ∧ info.Config.Chroot ≠ "/" then
    ⟨some "must use privilege dropping to use chroot; set uid", false,
      st0, tr0⟩
  else finishDrop k info st0 tr0

/-- Embeds ihandler.DropPrivileges (src/unnamed/part_013 line 103): idempotent
re-entry, best-effort bansuid, GID fixup from the UID, chroot-path fixup,
UID/GID parsing, then `dropCore` for the drop itself. -/
def ihandlerDropPrivileges (k : Kernel) (info : Info) (dropped : Bool)
    (st : SysState) : HRes :=
  if dropped then ⟨none, true, st, []⟩
  else
    let bs := if info.NoBanSuid then (st, ([] : List Ev))
              else (k.banSuid st, [Ev.bansuidCall])
    match (if info.Config.UID ≠ "" ∧ info.Config.GID = "" then
            (GetGIDForUID k info.Config.UID).map (fun g => toString g)
          else .ok info.Config.GID : Except String String) with
    | .error e => ⟨some e, false, bs.1, bs.2⟩
    | .ok gidStr =>
      let chrootPath := if info.Config.Chroot = "" then
                          (if info.DefaultChroot = "" then "/"
                           else info.DefaultChroot)
                        else info.Config.Chroot
      match (if info.Config.UID ≠ "" then
              match ParseUID k info.Config.UID with
              | .error e => .error e
              | .ok u =>
                match ParseGID k gidStr with
                | .error e => .error e
                | .ok g => .ok (u, g)
            else .ok ((-1 : Int), (-1 : Int)) : Except String (Int × Int)) with
      | .error e => ⟨some e, false, bs.1, bs.2⟩
      | .ok ug => dropCore k info ug.1 ug.2 chrootPath bs.1 bs.2

end Svc3

/-! ### Concrete kernels used by witnesses and counterexamples -/

/-- Concrete well-behaved kernel: identity changes succeed and update the
state, setuid/setgid succeed only with effective uid 0, no capabilities are
ever present, the passwd database is empty apart from numeric ids. -/
def kGood : Kernel where
  setgroups := fun _ st => .ok st
  setresgid := fun r e _ st => .ok { st with gid := r, egid := e }
  setresuid := fun r e _ st => .ok { st with uid := r, euid := e }
  setuid := fun u st =>
    if st.euid = 0 then .ok { st with uid := u, euid := u } else .error "EPERM"
  setgid := fun g st =>
    if st.euid = 0 then .ok { st with gid := g, egid := g } else .error "EPERM"
  chroot := fun _ st => .ok st
  chdir := fun _ st => .ok st
  capsHaveAny := fun _ => false
  capsDrop := fun st => .ok st
  getExtraGIDs := fun _ => .ok []
  primaryGID := fun n => .ok n
  lookupUser := fun _ => .error "cannot convert username to uid"
  lookupGroup := fun _ => .error "cannot convert group name to gid"
  banSuid := fun st => st
  go15bug := false
  platformSupportsCaps := true

/-- Initial root state. -/
def stRoot : SysState := ⟨0, 0, 0, 0⟩

/-- An unprivileged state. -/
def stUser : SysState := ⟨1000, 1000, 1000, 1000⟩

/-- Kernel on which both the chroot and the setgroups call fail. -/
def kChrootAndGroupsFail : Kernel :=
  { kGood with
    chroot := fun _ _ => .error "ENOENT"
    setgroups := fun _ _ => .error "EPERM" }

/-- Kernel on which only the chroot call fails. -/
def kChrootFail : Kernel :=
  { kGood with chroot := fun _ _ => .error "ENOENT" }

/-- Concrete v3 service Info performing a nominal drop to uid/gid 100. -/
def infoNominal : Svc3.Info := ⟨false, "", true, ⟨"100", "100", ""⟩⟩

/-- Concrete v3 service Info whose target UID and GID are the string zero. -/
def infoZeroTarget : Svc3.Info := ⟨true, "", true, ⟨"0", "0", ""⟩⟩

/-- Concrete v3 service Info with an explicitly requested chroot. -/
def infoChrootReq : Svc3.Info := ⟨true, "", true, ⟨"100", "100", "/jail"⟩⟩

/-- Statement helper mirroring the chroot-path fixups of
ihandler.DropPrivileges (src/unnamed/part_013 lines 126-133). -/
def Svc3.chrootPathOf (info : Svc3.Info) : String :=
  if info.Config.Chroot = "" then
    (if info.DefaultChroot = "" then "/" else info.DefaultChroot)
  else info.Config.Chroot

/-- True iff a capability-drop call occurs strictly before the first
verification event of a trace. -/
def capsDropBeforeVerify : List Ev → Bool
  | [] => false
  | Ev.verify :: _ => false
  | Ev.capsDropCall :: _ => true
  | _ :: rest => capsDropBeforeVerify rest

/-! ### PID file (src/unnamed/part_004)

The file system is modelled by the outcomes the OS produces during each
iteration of the create/open/lock/stat loop.  A file object is an inode
number plus its current byte content (a `String`).  The Go loop has no
fuel bound; the model consumes one `Round` per iteration and reports
`spin` if the supplied outcome list is exhausted. -/

namespace PidFile

/-- Outcome of os.OpenFile with O_RDWR, O_CREAT and O_EXCL. -/
inductive CreateRes where
  | created (ino : Nat)
  | alreadyExists
  | otherErr (e : String)
  deriving Repr, DecidableEq

/-- Outcome of os.OpenFile with O_RDWR on the existing file; `opened` carries
the inode and the current content of the opened file object. -/
inductive OpenRes where
  | opened (ino : Nat) (content : String)
  | notExist
  | otherErr (e : String)
  deriving Repr, DecidableEq

/-- Outcome of syscall.Stat on the path. -/
inductive StatRes where
  | found (ino : Nat)
  | notExist
  | otherErr (e : String)
  deriving Repr, DecidableEq

/-- OS outcomes for one iteration of the openPIDFile loop.  Fstat on the open
fd reports the inode of the handle itself, so only its error case is an
oracle. -/
structure Round where
  create : CreateRes
  openExisting : OpenRes
  lock : Option String
  fstatErr : Option String
  statPath : StatRes
  deriving Repr, DecidableEq

/-- Result of the open loop: the locked handle (inode and content at open
time), an error, or loop continuation past the modelled rounds. -/
inductive OpenOut where
  | opened (ino : Nat) (content : String)
  | failed (e : String)
  | spin
  deriving Repr, DecidableEq

/-- Embeds openPIDFile (src/unnamed/part_004 line 49): create exclusively,
else open the existing file; take the whole-file write lock; compare the
fd inode with the path inode; retry when the path vanished or the inodes
differ. -/
def openPIDFile : List Round → OpenOut
  | [] => .spin
  | r :: rest =>
    match (match r.create with
           | .created ino => .ok (ino, "")
           | .otherErr e => .error (some e)
           | .alreadyExists =>
             match r.openExisting with
             | .opened ino c => .ok (ino, c)
             | .notExist => .error none
             | .otherErr e => .error (some e)
           : Except (Option String) (Nat × String)) with
    | .error none => openPIDFile rest
    | .error (some e) => .failed e
    | .ok (ino, c) =>
      match r.lock with
      | some e => .failed e
      | none =>
        match r.fstatErr with
        | some e => .failed e
        | none =>
          match r.statPath with
          | .notExist => openPIDFile rest
          | .otherErr e => .failed e
          | .found ino2 =>
            if ino ≠ ino2 then openPIDFile rest else .opened ino c

/-- Writing at offset zero of a freshly opened file: the new bytes replace a
prefix of the old content in place; there is no truncation. -/
def writeAt0 (s c : String) : String := s ++ c.drop s.length

/-- Decimal pid followed by a newline, the string written by OpenPIDFile. -/
def pidString (pid : Nat) : String := toString pid ++ "\n"

/-- Result of OpenPIDFile: the held file (inode and content), an error, or
loop continuation. -/
inductive PidOut where
  | held (ino : Nat) (content : String)
  | failed (e : String)
  | spin
  deriving Repr, DecidableEq

/-- Embeds OpenPIDFile (src/unnamed/part_004 line 14): refuse a second open,
run the open loop, then write the decimal pid and a newline at the start of
the file. -/
def OpenPIDFile (alreadyOpen : Bool) (pid : Nat) (writeErr : Option String)
    (rounds : List Round) : PidOut :=
  if alreadyOpen then .failed "PID file already opened"
  else
    match openPIDFile rounds with
    | .spin => .spin
    | .failed e => .failed e
    | .opened ino c =>
      match writeErr with
      | some e => .failed e
      | none => .held ino (writeAt0 (pidString pid) c)

end PidFile

/-! ### systemd notification (src/sdnotify/sdnotify_unix.go) -/

namespace Sd

/-- Message of the SdNotifyNoSocket error value. -/
def SdNotifyNoSocket : String := "No socket"

/-- Package-level state: the once-flag and the kept-open socket. -/
structure SdState where
  inited : Bool
  socket : Option Nat
  deriving Repr, DecidableEq

/-- Per-call environment: the NOTIFY_SOCKET variable as read at this call,
the outcome net.DialUnix would produce at this call, and the outcome of a
write on a given socket. -/
structure SdEnv where
  notifySocket : String
  dial : Except String Nat
  write : Nat → Option String

/-- Record of a dial attempt. -/
inductive SdEv where
  | dialAttempt
  deriving Repr, DecidableEq

/-- Embeds SdNotify (src/sdnotify/sdnotify_unix.go line 20): on the first
call, read NOTIFY_SOCKET and dial it, keeping the socket open; on every call,
fail with SdNotifyNoSocket when no socket is held, else write the state
string. -/
def SdNotify (env : SdEnv) (st : SdState) : Option String × SdState × List SdEv :=
  if !st.inited then
    let st1 : SdState := { st with inited := true }
    if env.notifySocket = "" then (some SdNotifyNoSocket, st1, [])
    else
      match env.dial with
      | .error e => (some e, st1, [.dialAttempt])
      | .ok s =>
        let st2 : SdState := { st1 with socket := some s }
        (env.write s, st2, [.dialAttempt])
  else
    match st.socket with
    | none => (some SdNotifyNoSocket, st, [])
    | some s => (env.write s, st, [])

end Sd

/-! ### Lifecycle supervisor (src/service.go) -/

namespace Lifecycle

/-- Status-sharing part of the ihandler (src/service.go lines 316-326):
the status string written under the mutex and the capacity-1
statusNotifyChan, modelled as a Bool slot (true = token pending). -/
structure IState where
  status : String
  statusNotify : Bool
  deriving Repr, DecidableEq

/-- Embeds ihandler.SetStatus (src/service.go line 343): store the status
under the mutex, then run a select whose non-default case is a RECEIVE from
statusNotifyChan: a pending token is consumed, otherwise nothing happens. -/
def SetStatus (s : String) (st : IState) : IState :=
  let st1 : IState := { st with status := s }
  if st1.statusNotify then { st1 with statusNotify := false } else st1

/-- Events the runInteractively select loop can process (src/service.go
lines 392-411); the payload-done event ends the loop and is modelled by the
end of the event list. -/
inductive LEvent where
  | sig
  | startedObs
  | statusObs
  deriving Repr, DecidableEq

/-- Actions the loop body performs. -/
inductive Act where
  | closeStop
  | publish
  deriving Repr, DecidableEq

/-- Supervisor flags of the ihandler used by the loop. -/
structure LState where
  stopping : Bool
  started : Bool
  stopClosed : Bool
  deriving Repr, DecidableEq

/-- Initial ihandler flags (src/service.go line 374). -/
def initL : LState := ⟨false, false, false⟩

/-- Embeds one iteration of the runInteractively select loop: on a signal,
latch stopping, close the stop channel and publish; on a started token, latch
started and publish; on a status token, publish. -/
def lstep (s : LState) : LEvent → LState × List Act
  | .sig =>
    if s.stopping then (s, [])
    else ({ s with stopping := true, stopClosed := true }, [.closeStop, .publish])
  | .startedObs =>
    if s.started then (s, []) else ({ s with started := true }, [.publish])
  | .statusObs => (s, [.publish])

/-- Runs the loop over a list of events, collecting actions. -/
def lrun (s : LState) : List LEvent → LState × List Act
  | [] => (s, [])
  | e :: rest =>
    let p := lstep s e
    let q := lrun p.1 rest
    (q.1, p.2 ++ q.2)

/-- Outcome of an operation that can abort the process. -/
inductive CallOut (σ : Type) where
  | ok (s : σ)
  | panicked (msg : String)
  deriving Repr, DecidableEq

/-- State for the unix SetStarted path: the dropped flag, the capacity-1
startedChan slot, and the supervisor started flag. -/
structure UState where
  dropped : Bool
  startedSlot : Bool
  started : Bool
  deriving Repr, DecidableEq

/-- Embeds ihandler.SetStarted (src/service.go line 328): abort unless
privileges were dropped, then a non-blocking send on the capacity-1
startedChan (dropped when a token is already pending). -/
def SetStartedU (s : UState) : CallOut UState :=
  if !s.dropped then
    .panicked "service must call DropPrivileges before calling SetStarted"
  else if !s.startedSlot then .ok { s with startedSlot := true }
  else .ok s

/-- Embeds the startedChan case of the unix loop (src/service.go lines
401-405): consume the token; latch started if not yet set, else do
nothing. -/
def obsStartedU (s : UState) : CallOut UState :=
  let s1 : UState := { s with startedSlot := false }
  if !s1.started then .ok { s1 with started := true } else .ok s1

/-- Interleaving of payload SetStarted calls and supervisor observations. -/
inductive UOp where
  | callSetStarted
  | observeStarted
  deriving Repr, DecidableEq

/-- One step of the unix started protocol. -/
def ustep (s : UState) : UOp → CallOut UState
  | .callSetStarted => SetStartedU s
  | .observeStarted => obsStartedU s

/-- Runs a sequence of unix started-protocol operations. -/
def urun (s : UState) : List UOp → CallOut UState
  | [] => .ok s
  | op :: rest =>
    match ustep s op with
    | .panicked m => .panicked m
    | .ok s1 => urun s1 rest

/-- Windows service loop flags (src/service_windows.go lines 73-74). -/
structure WState where
  started : Bool
  stopping : Bool
  deriving Repr, DecidableEq

/-- Embeds the startedChan case of handler.Execute (src/service_windows.go
lines 103-108): a second started notification observed by the loop panics. -/
def wObsStarted (s : WState) : CallOut WState :=
  if s.started then .panicked "must not call SetStarted() more than once"
  else .ok { s with started := true }

end Lifecycle

/-! ### Daemonizer fork (src/daemon/daemon.go, src/unnamed/part_005) -/

namespace Daemon

/-- The fixed argv sentinel (src/daemon/daemon.go line 31). -/
def forkedArg : String := "$*_FORKED_*$"

/-- Result of Fork: the parent records the argv it spawned; the child records
the argv the payload observes after stripping. -/
inductive ForkOut where
  | parent (spawned : List String)
  | child (args : List String)
  deriving Repr, DecidableEq

/-- Embeds Fork (src/daemon/daemon.go line 36, identically part_005 line 33):
if the last argv element is the sentinel, strip it and report child;
otherwise spawn the absolute exe path followed by argv[1:] and one trailing
sentinel, and report parent.  A Go process always has a non-empty argv; on
the unreachable empty list the model takes the parent branch. -/
def Fork (absExe : String) (args : List String) : ForkOut :=
  if args.getLast? = some forkedArg then .child args.dropLast
  else .parent (absExe :: args.tail ++ [forkedArg])

/-- Argv the payload observes after one fork round trip: the parent spawns
and exits, the spawned process strips the sentinel.  The second fallback arm
is unreachable because a spawned argv always ends in the sentinel. -/
def forkRound (absExe : String) (args : List String) : List String :=
  match Fork absExe args with
  | .child a => a
  | .parent spawned =>
    match Fork absExe spawned with
    | .child a => a
    | .parent s2 => s2

end Daemon

/-! ## Theorems -/

/-- The verification conditions named by the claim for a completed privilege
drop, evaluated at a state: the four ids are non-zero, setuid(0) and
setgid(0) fail, and no capability is present. -/
def verifConds (k : Kernel) (st : SysState) : Prop :=
  st.uid ≠ 0 ∧ st.euid ≠ 0 ∧ st.gid ≠ 0 ∧ st.egid ≠ 0 ∧
  exceptOk (k.setuid 0 st) = false ∧ exceptOk (k.setgid 0 st) = false ∧
  k.capsHaveAny st = false

instance (k : Kernel) (st : SysState) : Decidable (verifConds k st) := by
  unfold verifConds
  infer_instance

theorem ensureNoPrivs_none_iff (k : Kernel) (st : SysState) :
    (ensureNoPrivs k st).err = none ↔ verifConds k st := by
  unfold ensureNoPrivs verifConds IsRoot isRoot
  cases hC : k.capsHaveAny st <;>
    cases hU : k.setuid 0 st <;>
      cases hG : k.setgid 0 st <;>
        simp only [hC, hU, hG, exceptOk, Bool.false_or, Bool.true_or] <;>
          split <;>
            simp_all [beq_iff_eq] <;> tauto

theorem ensureNoPrivs_none_st (k : Kernel) (st : SysState)
    (h : (ensureNoPrivs k st).err = none) : (ensureNoPrivs k st).st = st := by
  unfold ensureNoPrivs at h ⊢
  cases hC : IsRoot k st <;>
    cases hU : k.setuid 0 st <;>
      cases hG : k.setgid 0 st <;>
        simp_all

/-- C1: a v3 DropPrivileges invocation returns a nil err only if the
post-state satisfies every verification condition (four non-zero ids, a
subsequent setuid(0) and setgid(0) both fail, no capability present);
conversely, whenever the drop steps (dropPrivileges followed by the chdir)
complete but some verification condition fails at the resulting state,
DropPrivileges returns a non-nil err. -/
theorem C1_drop_verification (k : Kernel) (UID GID : Int) (dir : String)
    (st : SysState) :
    ((V3.DropPrivileges k UID GID dir st).err = none →
      verifConds k (V3.DropPrivileges k UID GID dir st).st) ∧
    (∀ st1, (V3.dropPrivileges k UID GID dir st).err = none →
      k.chdir "/" (V3.dropPrivileges k UID GID dir st).st = .ok st1 →
      ¬ verifConds k st1 →
      (V3.DropPrivileges k UID GID dir st).err ≠ none) := by
  unfold V3.DropPrivileges
  rcases hd : V3.dropPrivileges k UID GID dir st with ⟨ce, derr, st2, tr⟩
  cases derr with
  | some e => simp
  | none =>
    simp only
    cases hc : k.chdir "/" st2 with
    | error e => simp
    | ok st1 =>
      simp only
      constructor
      · intro h
        cases hv : (ensureNoPrivs k st1).err with
        | some e => rw [hv] at h; simp at h
        | none =>
          simp only
          rw [ensureNoPrivs_none_st k st1 hv]
          exact (ensureNoPrivs_none_iff k st1).mp hv
      · intro sta _ hca hnv
        injection hca with hca2
        subst hca2
        cases hv : (ensureNoPrivs k st1).err with
        | some e => simp
        | none =>
          exact absurd ((ensureNoPrivs_none_iff k st1).mp hv) hnv

/-- Witness for C1: a concrete successful drop whose post-state satisfies the
verification conditions. -/
theorem C1_drop_verification_witness :
    verifConds kGood (V3.DropPrivileges kGood 100 100 "/" stRoot).st :=
  (C1_drop_verification kGood 100 100 "/" stRoot).1 (by decide)

/-! Trace lemmas for the ordering claim C3. -/

theorem cdbv_of_not_mem {l : List Ev} (h : Ev.capsDropCall ∉ l) :
    capsDropBeforeVerify l = false := by
  induction l with
  | nil => rfl
  | cons e rest ih => cases e <;> simp_all [capsDropBeforeVerify]

theorem cdbv_append_of_mem {l1 : List Ev} (l2 : List Ev)
    (hin : Ev.capsDropCall ∈ l1) (hnv : Ev.verify ∉ l1) :
    capsDropBeforeVerify (l1 ++ l2) = true := by
  induction l1 with
  | nil => simp at hin
  | cons e rest ih => cases e <;> simp_all [capsDropBeforeVerify]

theorem cdbv_append_of_verify {l1 : List Ev} (l2 : List Ev)
    (hin : Ev.verify ∈ l1) (hnc : Ev.capsDropCall ∉ l1) :
    capsDropBeforeVerify (l1 ++ l2) = false := by
  induction l1 with
  | nil => simp at hin
  | cons e rest ih => cases e <;> simp_all [capsDropBeforeVerify]

theorem tryChroot_tr (k : Kernel) (p : String) (st : SysState) :
    Ev.capsDropCall ∉ (tryChroot k p st).tr ∧ Ev.verify ∉ (tryChroot k p st).tr := by
  unfold tryChroot
  by_cases h1 : (if p = "/" then "" else p) = ""
  · simp [h1]
  · rw [if_neg h1]
    cases h : k.chroot (if p = "/" then "" else p) st <;> simp [h]

theorem ensureNoPrivs_tr (k : Kernel) (st : SysState) :
    (ensureNoPrivs k st).tr = [Ev.verify] := by
  unfold ensureNoPrivs
  split
  · rfl
  · cases hU : k.setuid 0 st <;> cases hG : k.setgid 0 st <;> simp [hU, hG]

theorem tryDropPrivileges_tr_V3 (k : Kernel) (UID GID : Int) (gids : List Int)
    (st : SysState) :
    Ev.capsDropCall ∉ (V3.tryDropPrivileges k UID GID gids st).tr ∧
    Ev.verify ∉ (V3.tryDropPrivileges k UID GID gids st).tr := by
  unfold V3.tryDropPrivileges
  split
  · simp
  · split
    · simp
    · cases h1 : k.setgroups gids st with
      | error e => simp [h1]
      | ok st1 =>
        cases h2 : k.setresgid GID GID GID st1 with
        | error e => simp [h1, h2]
        | ok st2 => cases h3 : k.setresuid UID UID UID st2 <;> simp [h1, h2, h3]

theorem tryDropPrivileges_tr_V1b (k : Kernel) (UID GID : Int) (gids : List Int)
    (st : SysState) :
    Ev.capsDropCall ∉ (V1b.tryDropPrivileges k UID GID gids st).tr ∧
    Ev.verify ∉ (V1b.tryDropPrivileges k UID GID gids st).tr := by
  unfold V1b.tryDropPrivileges
  split
  · simp
  · cases h1 : k.setgroups gids st with
    | error e => simp [h1]
    | ok st1 =>
      cases h2 : k.setresgid GID GID GID st1 with
      | error e => simp [h1, h2]
      | ok st2 => cases h3 : k.setresuid UID UID UID st2 <;> simp [h1, h2, h3]

theorem capsBlock_tr (k : Kernel) (ce : Option String) (st : SysState)
    (tr : List Ev) (hp : k.platformSupportsCaps = true) :
    (V1b.capsBlock k ce st tr).tr = tr ++ [Ev.capsDropCall] := by
  unfold V1b.capsBlock
  rw [hp]
  cases h : k.capsDrop st <;> simp

theorem capsBlock_tr_false (k : Kernel) (ce : Option String) (st : SysState)
    (tr : List Ev) (hp : k.platformSupportsCaps = false) :
    (V1b.capsBlock k ce st tr).tr = tr := by
  unfold V1b.capsBlock
  rw [hp]
  simp

theorem V1b_dropPrivileges_tr (k : Kernel) (UID GID : Int) (d : String)
    (st : SysState) :
    Ev.verify ∉ (V1b.dropPrivileges k UID GID d st).tr ∧
    (k.platformSupportsCaps = true → (V1b.dropPrivileges k UID GID d st).err = none →
      Ev.capsDropCall ∈ (V1b.dropPrivileges k UID GID d st).tr) := by
  unfold V1b.dropPrivileges
  split
  · simp
  · split
    · cases hg : k.getExtraGIDs GID with
      | error e => simp
      | ok gs =>
        dsimp only
        have hc := tryChroot_tr k d st
        have hd := tryDropPrivileges_tr_V1b k UID GID (gs ++ [GID]) (tryChroot k d st).st
        cases hde : (V1b.tryDropPrivileges k UID GID (gs ++ [GID]) (tryChroot k d st).st).err with
        | some e => simp [hc.2, hd.2]
        | none =>
          dsimp only
          constructor
          · by_cases hp : k.platformSupportsCaps = true
            · rw [capsBlock_tr k _ _ _ hp]
              simp [hc.2, hd.2]
            · rw [capsBlock_tr_false k _ _ _ (Bool.eq_false_iff.mpr hp)]
              simp [hc.2, hd.2]
          · intro hp _
            rw [capsBlock_tr k _ _ _ hp]
            simp
    · dsimp only
      have hc := tryChroot_tr k d st
      constructor
      · by_cases hp : k.platformSupportsCaps = true
        · rw [capsBlock_tr k _ _ _ hp]
          simp [hc.2]
        · rw [capsBlock_tr_false k _ _ _ (Bool.eq_false_iff.mpr hp)]
          exact hc.2
      · intro hp _
        rw [capsBlock_tr k _ _ _ hp]
        simp

theorem V3_DropPrivileges_no_capsDrop (k : Kernel) (UID GID : Int) (d : String)
    (st : SysState) :
    Ev.capsDropCall ∉ (V3.DropPrivileges k UID GID d st).tr := by
  have hdp : Ev.capsDropCall ∉ (V3.dropPrivileges k UID GID d st).tr := by
    unfold V3.dropPrivileges
    split
    · simp
    · split
      · cases hg : k.getExtraGIDs GID with
        | error e => simp
        | ok gs =>
          dsimp only
          have hc := tryChroot_tr k d st
          have hd := tryDropPrivileges_tr_V3 k UID GID (gs ++ [GID]) (tryChroot k d st).st
          simp [hc.1, hd.1]
      · dsimp only
        exact (tryChroot_tr k d st).1
  unfold V3.DropPrivileges
  rcases hd2 : V3.dropPrivileges k UID GID d st with ⟨ce, derr, st2, tr2⟩
  have hdp2 : Ev.capsDropCall ∉ tr2 := by rw [hd2] at hdp; exact hdp
  cases derr with
  | some e => exact hdp2
  | none =>
    dsimp only
    cases hch : k.chdir "/" st2 with
    | error e => simp [hdp2]
    | ok st1 =>
      dsimp only
      have hv := ensureNoPrivs_tr k st1
      cases hve : (ensureNoPrivs k st1).err <;> simp [hv, hdp2]

theorem finishDrop_tr (k : Kernel) (info : Svc3.Info) (st : SysState)
    (tr : List Ev) :
    (Svc3.finishDrop k info st tr).tr = tr ++ [Ev.capsDropCall] := by
  unfold Svc3.finishDrop
  cases h : k.capsDrop st with
  | error e => rfl
  | ok st1 => dsimp only; split <;> rfl

theorem dropCore_shape (k : Kernel) (info : Svc3.Info) (uid gid : Int)
    (cp : String) (st0 : SysState) (tr0 : List Ev)
    (htr0 : Ev.capsDropCall ∉ tr0) :
    Ev.capsDropCall ∉ (Svc3.dropCore k info uid gid cp st0 tr0).tr ∨
    ∃ l1, (Svc3.dropCore k info uid gid cp st0 tr0).tr = l1 ++ [Ev.capsDropCall] ∧
      Ev.capsDropCall ∉ l1 := by
  unfold Svc3.dropCore
  split
  · left; exact htr0
  · split
    · rcases hR : V3.DropPrivileges k uid gid cp st0 with ⟨ce, derr, st1, tr1⟩
      have h1 : Ev.capsDropCall ∉ tr1 := by
        have h2 := V3_DropPrivileges_no_capsDrop k uid gid cp st0
        rw [hR] at h2; exact h2
      cases derr with
      | some e => left; simp [htr0, h1]
      | none =>
        cases ce with
        | some ce2 =>
          dsimp only
          split
          · left; simp [htr0, h1]
          · right
            simp only [finishDrop_tr]
            exact ⟨tr0 ++ tr1, rfl, by simp [htr0, h1]⟩
        | none =>
          right
          simp only [finishDrop_tr]
          exact ⟨tr0 ++ tr1, rfl, by simp [htr0, h1]⟩
    · split
      · left; exact htr0
      · right
        simp only [finishDrop_tr]
        exact ⟨tr0, rfl, htr0⟩

theorem ihandler_tr_shape (k : Kernel) (info : Svc3.Info) (dropped : Bool)
    (st : SysState) :
    Ev.capsDropCall ∉ (Svc3.ihandlerDropPrivileges k info dropped st).tr ∨
    ∃ l1, (Svc3.ihandlerDropPrivileges k info dropped st).tr = l1 ++ [Ev.capsDropCall] ∧
      Ev.capsDropCall ∉ l1 := by
  have htr0 : Ev.capsDropCall ∉
      (if info.NoBanSuid then (st, ([] : List Ev))
       else (k.banSuid st, [Ev.bansuidCall])).2 := by
    split <;> simp
  unfold Svc3.ihandlerDropPrivileges
  split
  · left; simp
  · cases hfix : (if info.Config.UID ≠ "" ∧ info.Config.GID = "" then
          (GetGIDForUID k info.Config.UID).map (fun g => toString g)
        else .ok info.Config.GID : Except String String) with
    | error e => left; exact htr0
    | ok gidStr =>
      dsimp only
      cases hpar : (if info.Config.UID ≠ "" then
              match ParseUID k info.Config.UID with
              | .error e => .error e
              | .ok u =>
                match ParseGID k gidStr with
                | .error e => .error e
                | .ok g => .ok (u, g)
            else .ok ((-1 : Int), (-1 : Int)) : Except String (Int × Int)) with
      | error e => left; exact htr0
      | ok ug => exact dropCore_shape k info ug.1 ug.2 _ _ _ htr0

/-- C3 counterexample: a v3 supervised privilege drop whose trace contains
the verification event with no capability-drop call before it (the
capability drop happens only after verification). -/
theorem C3_counterexample :
    Ev.verify ∈ (Svc3.ihandlerDropPrivileges kGood infoNominal false stRoot).tr ∧
    capsDropBeforeVerify
      (Svc3.ihandlerDropPrivileges kGood infoNominal false stRoot).tr = false := by
  decide

/-- C3 amended: in the v1 pipeline of part_008, on a capability-supporting
platform, whenever the verification step runs a capability-drop call precedes
it; in the v3 pipeline (droppriv.go driven by ihandler.DropPrivileges), the
capability drop is never invoked before the verification step: verification,
when present, precedes any capability drop. -/
theorem C3_caps_drop_order :
    (∀ (k : Kernel) (UID GID : Int) (d : String) (st : SysState),
      k.platformSupportsCaps = true →
      Ev.verify ∈ (V1b.DropPrivileges k UID GID d st).tr →
      capsDropBeforeVerify (V1b.DropPrivileges k UID GID d st).tr = true) ∧
    (∀ (k : Kernel) (info : Svc3.Info) (dropped : Bool) (st : SysState),
      Ev.verify ∈ (Svc3.ihandlerDropPrivileges k info dropped st).tr →
      capsDropBeforeVerify (Svc3.ihandlerDropPrivileges k info dropped st).tr = false) := by
  constructor
  · intro k UID GID d st hp hmem
    have hd := V1b_dropPrivileges_tr k UID GID d st
    unfold V1b.DropPrivileges at hmem ⊢
    rcases hdp : V1b.dropPrivileges k UID GID d st with ⟨ce, derr, st2, tr2⟩
    rw [hdp] at hmem
    dsimp only at hmem
    have hnv : Ev.verify ∉ tr2 := by rw [hdp] at hd; exact hd.1
    cases derr with
    | some e =>
      simp at hmem
      exact absurd hmem hnv
    | none =>
      have hcm : Ev.capsDropCall ∈ tr2 := by
        have h2 := hd.2 hp (by rw [hdp])
        rw [hdp] at h2
        exact h2
      dsimp only at hmem ⊢
      cases hch : k.chdir "/" st2 with
      | error e =>
        try rw [hch] at hmem
        simp at hmem
        exact absurd hmem hnv
      | ok st1 =>
        have hnv2 : Ev.verify ∉ tr2 ++ [Ev.chdirCall] := by simp [hnv]
        have hcm2 : Ev.capsDropCall ∈ tr2 ++ [Ev.chdirCall] := by simp [hcm]
        try dsimp only
        rw [ensureNoPrivs_tr]
        cases (ensureNoPrivs k st1).err <;> exact cdbv_append_of_mem _ hcm2 hnv2
  · intro k info dropped st hmem
    rcases ihandler_tr_shape k info dropped st with h | ⟨l1, hl, hnc⟩
    · exact cdbv_of_not_mem h
    · rw [hl] at hmem ⊢
      simp at hmem
      exact cdbv_append_of_verify _ hmem hnc

/-- Witness for C3: concrete executions of both pipelines exercising the
amended ordering statement. -/
theorem C3_caps_drop_order_witness :
    capsDropBeforeVerify (V1b.DropPrivileges kGood 100 100 "/" stRoot).tr = true ∧
    capsDropBeforeVerify
      (Svc3.ihandlerDropPrivileges kGood infoNominal false stRoot).tr = false :=
  ⟨C3_caps_drop_order.1 kGood 100 100 "/" stRoot (by decide) (by decide),
   C3_caps_drop_order.2 kGood infoNominal false stRoot (by decide)⟩

/-- C4 counterexample: a configuration whose target UID is the string zero is
accepted by the v3 supervisor without error (uid 0 parses to a non-positive
value, which is treated as no privilege drop rather than rejected). -/
theorem C4_counterexample :
    infoZeroTarget.Config.UID = "0" ∧
    (Svc3.ihandlerDropPrivileges kGood infoZeroTarget false stUser).err = none ∧
    (Svc3.ihandlerDropPrivileges kGood infoZeroTarget false stUser).dropped = true := by
  decide

/-- C4 amended: the v1 daemon rejects a zero target: tryDropPrivileges with
UID 0 or GID 0 always returns a non-nil error; the v3 supervisor does not
reject UID and GID strings parsing to 0: with Config.UID and Config.GID both
the string zero it succeeds exactly when no chroot was requested, the
capability drop succeeds, and the AllowRoot policy is not violated. -/
theorem C4_zero_target :
    (∀ (k : Kernel) (UID GID : Int) (gids : List Int) (st : SysState),
      UID = 0 ∨ GID = 0 → (V1.tryDropPrivileges k UID GID gids st).err ≠ none) ∧
    (∀ (k : Kernel) (info : Svc3.Info) (st : SysState),
      info.NoBanSuid = true → info.Config.UID = "0" → info.Config.GID = "0" →
      ((Svc3.ihandlerDropPrivileges k info false st).err = none ↔
        ((info.Config.Chroot = "" ∨ info.Config.Chroot = "/") ∧
         ∃ st1, k.capsDrop st = .ok st1 ∧
           ¬(info.AllowRoot = false ∧ IsRoot k st1 = true)))) := by
  constructor
  · intro k UID GID gids st h0
    unfold V1.tryDropPrivileges
    split
    · simp
    · cases h1 : k.setgroups gids st with
      | error e => simp [h1]
      | ok st1 =>
        cases h2 : k.setresgid GID GID GID st1 with
        | error e => simp [h1, h2]
        | ok st2 =>
          cases h3 : k.setresuid UID UID UID st2 with
          | error e => simp [h1, h2, h3]
          | ok st3 =>
            have hz : (decide (UID = 0) || decide (GID = 0)) = true := by
              rcases h0 with h | h <;> simp [h]
            simp [h1, h2, h3, hz]
  · intro k info st hnb hU hG
    have hcond : ¬(info.Config.UID ≠ "" ∧ info.Config.GID = "") := by
      rw [hU, hG]; decide
    have hcond2 : info.Config.UID ≠ "" := by rw [hU]; decide
    unfold Svc3.ihandlerDropPrivileges
    rw [if_neg (by decide)]
    simp only [hnb, if_true, hU, hG]
    rw [if_neg (by rw [hU, hG] at hcond; exact hcond)]
    dsimp only
    rw [if_pos (by decide : ("0" : String) ≠ "")]
    have hp1 : ParseUID k "0" = .ok 0 := rfl
    have hp2 : ParseGID k "0" = .ok 0 := rfl
    rw [hp1, hp2]
    dsimp only
    unfold Svc3.dropCore
    rw [if_neg (by decide : ¬((decide ((0 : Int) ≤ 0) != decide ((0 : Int) ≤ 0)) = true))]
    rw [if_neg (by decide : ¬(decide ((0 : Int) > 0) = true))]
    by_cases hch : info.Config.Chroot ≠ "" ∧ info.Config.Chroot ≠ "/"
    · rw [if_pos hch]
      constructor
      · intro h; simp at h
      · rintro ⟨hc, -⟩
        rcases hc with hc | hc
        · exact absurd hc hch.1
        · exact absurd hc hch.2
    · rw [if_neg hch]
      have hch2 : info.Config.Chroot = "" ∨ info.Config.Chroot = "/" := by
        by_cases h1 : info.Config.Chroot = ""
        · exact Or.inl h1
        · by_cases h2 : info.Config.Chroot = "/"
          · exact Or.inr h2
          · exact absurd ⟨h1, h2⟩ hch
      unfold Svc3.finishDrop
      cases hc : k.capsDrop st with
      | error e =>
        simp only
        constructor
        · intro h; simp at h
        · rintro ⟨-, st1, hst1, -⟩
          simp at hst1
      | ok st1 =>
        dsimp only
        by_cases hir : (!info.AllowRoot && IsRoot k st1) = true
        · rw [if_pos hir]
          simp only [Bool.and_eq_true, Bool.not_eq_true'] at hir
          constructor
          · intro h; simp at h
          · rintro ⟨-, st2, hst2, hpol⟩
            injection hst2 with hst2
            subst hst2
            exact absurd ⟨hir.1, hir.2⟩ hpol
        · rw [if_neg hir]
          simp only [Bool.and_eq_true, Bool.not_eq_true'] at hir
          constructor
          · intro _
            refine ⟨hch2, st1, rfl, ?_⟩
            intro hcontra
            exact hir ⟨hcontra.1, hcontra.2⟩
          · intro _; rfl

/-- Witness for C4: the v1 rejection at a concrete zero target, and a
concrete v3 acceptance of Config.UID zero. -/
theorem C4_zero_target_witness :
    (V1.tryDropPrivileges kGood 0 0 [] stRoot).err ≠ none ∧
    (Svc3.ihandlerDropPrivileges kGood infoZeroTarget false stUser).err = none :=
  ⟨C4_zero_target.1 kGood 0 0 [] stRoot (Or.inl rfl),
   (C4_zero_target.2 kGood infoZeroTarget stUser rfl rfl rfl).mpr
     ⟨Or.inl rfl, stUser, rfl, by decide⟩⟩

/-- C6 counterexample: a drop invocation on which the chroot step failed and
the remainder of the drop also failed returns a pair whose components are
both non-nil, so a non-nil chroot error does not imply that the remainder of
the drop succeeded. -/
theorem C6_counterexample :
    (V3.DropPrivileges kChrootAndGroupsFail 100 100 "/jail" stRoot).chrootErr ≠ none ∧
    (V3.DropPrivileges kChrootAndGroupsFail 100 100 "/jail" stRoot).err ≠ none := by
  decide

/-- C6 amended: chrootErr is non-nil iff the chroot step was attempted (sign
check passed, and the supplementary-gid lookup succeeded when the uid is
positive) and failed, independently of whether the remainder of the drop
succeeded; DropPrivileges passes the pair through unchanged; and the
supervisor treats a non-nil chrootErr of a successful drop as fatal iff a
chroot was explicitly requested (Config.Chroot non-empty and not the root),
otherwise it continues as if no chroot error had occurred. -/
theorem C6_chroot_err_policy :
    (∀ (k : Kernel) (d : String) (st : SysState),
      ((tryChroot k d st).err ≠ none ↔
        (d ≠ "/" ∧ d ≠ "" ∧ exceptOk (k.chroot d st) = false))) ∧
    (∀ (k : Kernel) (UID GID : Int) (d : String) (st : SysState),
      (V3.DropPrivileges k UID GID d st).chrootErr =
        (V3.dropPrivileges k UID GID d st).chrootErr ∧
      (V3.dropPrivileges k UID GID d st).chrootErr =
        (if decide (UID ≤ 0) != decide (GID ≤ 0) then none
         else if decide (UID > 0) then
           (match k.getExtraGIDs GID with
            | .error _ => none
            | .ok _ => (tryChroot k d st).err)
         else (tryChroot k d st).err)) ∧
    (∀ (k : Kernel) (info : Svc3.Info) (uid gid : Int) (cp : String)
       (st0 : SysState) (tr0 : List Ev) (ce : String) (st1 : SysState)
       (tr1 : List Ev),
      0 < uid → 0 < gid →
      V3.DropPrivileges k uid gid cp st0 = ⟨some ce, none, st1, tr1⟩ →
      ((info.Config.Chroot ≠ "" ∧ info.Config.Chroot ≠ "/" →
         Svc3.dropCore k info uid gid cp st0 tr0 =
           ⟨some ("failed to chroot: " ++ ce), false, st1, tr0 ++ tr1⟩) ∧
       ((info.Config.Chroot = "" ∨ info.Config.Chroot = "/") →
         Svc3.dropCore k info uid gid cp st0 tr0 =
           Svc3.finishDrop k info st1 (tr0 ++ tr1)))) := by
  refine ⟨?_, ?_, ?_⟩
  · intro k d st
    by_cases hslash : d = "/"
    · simp [tryChroot, hslash]
    · by_cases hempty : d = ""
      · simp [tryChroot, hslash, hempty]
      · cases hres : k.chroot d st <;>
          simp [tryChroot, hslash, hempty, hres, exceptOk]
  · intro k UID GID d st
    constructor
    · unfold V3.DropPrivileges
      rcases hd2 : V3.dropPrivileges k UID GID d st with ⟨ce, derr, st2, tr2⟩
      cases derr with
      | some e => rfl
      | none =>
        dsimp only
        cases hch : k.chdir "/" st2 with
        | error e => rfl
        | ok st1 =>
          dsimp only
          cases (ensureNoPrivs k st1).err <;> rfl
    · unfold V3.dropPrivileges
      by_cases hsign : (decide (UID ≤ 0) != decide (GID ≤ 0)) = true
      · simp [hsign]
      · by_cases hpos : decide (UID > 0) = true
        · cases hg : k.getExtraGIDs GID <;> simp [hsign, hpos, hg]
        · simp [hsign, hpos]
  · intro k info uid gid cp st0 tr0 ce st1 tr1 hu hg hV
    have h1 : (decide (uid ≤ 0) != decide (gid ≤ 0)) = false := by
      simp [not_le.mpr hu, not_le.mpr hg]
    have h2 : decide (uid > 0) = true := by simp [hu]
    unfold Svc3.dropCore
    rw [h1]
    rw [if_neg (by simp)]
    rw [if_pos (by rw [h2])]
    rw [hV]
    constructor
    · intro hreq
      dsimp only
      rw [if_pos hreq]
    · intro hreq
      dsimp only
      rw [if_neg ?_]
      rintro ⟨ha, hb⟩
      rcases hreq with h | h
      · exact ha h
      · exact hb h

/-- Witness for C6: a concrete drop whose chroot failed while the remainder
succeeded is fatal for the supervisor because a chroot was requested. -/
theorem C6_chroot_err_policy_witness :
    (Svc3.dropCore kChrootFail infoChrootReq 100 100 "/jail" stRoot []).err =
      some "failed to chroot: ENOENT" := by
  have h := (C6_chroot_err_policy.2.2 kChrootFail infoChrootReq 100 100 "/jail"
      stRoot [] "ENOENT" ⟨100, 100, 100, 100⟩
      [Ev.chrootCall, Ev.setgroupsCall, Ev.setresgidCall, Ev.setresuidCall,
        Ev.chdirCall, Ev.verify]
      (by decide) (by decide) (by decide)).1 (by decide)
  rw [h]
  rfl

/-- C7 counterexample: opening a PID file over an existing file with longer
content and writing pid 7 leaves residual bytes of the prior content, so the
resulting content is not exactly the decimal pid plus newline. -/
theorem C7_counterexample :
    PidFile.OpenPIDFile false 7 none
        [⟨.alreadyExists, .opened 5 "99999\n", none, none, .found 5⟩] =
      .held 5 "7\n999\n" ∧
    "7\n999\n" ≠ PidFile.pidString 7 := by
  decide

/-- C7 amended: on a successful open, the decimal pid plus newline is written
at offset zero without truncation: the resulting content is the pid string
followed by whatever bytes of the prior content lie beyond its length; in
particular the content is exactly the pid string whenever the opened file was
empty (e.g. freshly created). -/
theorem C7_pidfile_write :
    (∀ (pid : Nat) (rounds : List PidFile.Round) (ino : Nat) (c : String),
      PidFile.openPIDFile rounds = .opened ino c →
      PidFile.OpenPIDFile false pid none rounds =
        .held ino (PidFile.pidString pid ++
          c.drop (PidFile.pidString pid).length)) ∧
    (∀ (pid : Nat) (rounds : List PidFile.Round) (ino : Nat),
      PidFile.openPIDFile rounds = .opened ino "" →
      PidFile.OpenPIDFile false pid none rounds = .held ino (PidFile.pidString pid)) := by
  have h1 : ∀ (pid : Nat) (rounds : List PidFile.Round) (ino : Nat) (c : String),
      PidFile.openPIDFile rounds = .opened ino c →
      PidFile.OpenPIDFile false pid none rounds =
        .held ino (PidFile.pidString pid ++
          c.drop (PidFile.pidString pid).length) := by
    intro pid rounds ino c h
    unfold PidFile.OpenPIDFile
    rw [if_neg (by simp)]
    rw [h]
    rfl
  refine ⟨h1, ?_⟩
  intro pid rounds ino h
  rw [h1 pid rounds ino "" h]
  simp [PidFile.pidString]

/-- Witness for C7: a freshly created PID file holds exactly the decimal pid
and a newline. -/
theorem C7_pidfile_write_witness :
    PidFile.OpenPIDFile false 42 none
        [⟨.created 7, .notExist, none, none, .found 7⟩] =
      .held 7 (PidFile.pidString 42) :=
  C7_pidfile_write.2 42 [⟨.created 7, .notExist, none, none, .found 7⟩] 7
    (by decide)

/-- C2: the status write is not followed by a send on the coalescing notify
channel: SetStatus performs a non-blocking receive, so after any SetStatus
call no notification is pending; in particular a call from the empty-channel
state leaves the channel empty, and the supervisor select case on the notify
channel can never be enabled by a status write. -/
theorem C2_set_status_drains_notify :
    (∀ (s : String) (st : Lifecycle.IState),
      (Lifecycle.SetStatus s st).statusNotify = false) ∧
    Lifecycle.SetStatus "x" ⟨"", false⟩ = ⟨"x", false⟩ := by
  constructor
  · intro s st
    unfold Lifecycle.SetStatus
    dsimp only
    by_cases h : st.statusNotify = true
    · rw [if_pos h]
    · rw [if_neg h]
      exact Bool.eq_false_iff.mpr h
  · decide

/-- C9: once the first SdNotify call has run, the dial is never retried: if
the first call failed (NOTIFY_SOCKET unset, or the dial failed), every later
call returns the SdNotifyNoSocket error without dialing, whatever the
environment now holds; and only a held socket from a successful first dial
enables later sends. -/
theorem C9_sdnotify_latch :
    (∀ env : Sd.SdEnv,
      env.notifySocket = "" ∨ exceptOk env.dial = false →
      (Sd.SdNotify env ⟨false, none⟩).1 ≠ none ∧
      (Sd.SdNotify env ⟨false, none⟩).2.1 = ⟨true, none⟩) ∧
    (∀ (env : Sd.SdEnv) (st : Sd.SdState),
      st.inited = true → st.socket = none →
      Sd.SdNotify env st = (some Sd.SdNotifyNoSocket, st, [])) ∧
    (∀ (env : Sd.SdEnv) (st : Sd.SdState) (s : Nat),
      st.inited = true → st.socket = some s →
      Sd.SdNotify env st = (env.write s, st, [])) := by
  refine ⟨?_, ?_, ?_⟩
  · intro env h
    unfold Sd.SdNotify
    rw [if_pos (by decide)]
    by_cases he : env.notifySocket = ""
    · rw [if_pos he]
      exact ⟨by simp, rfl⟩
    · rw [if_neg he]
      cases hd : env.dial with
      | error e => exact ⟨by simp, rfl⟩
      | ok s =>
        rcases h with h | h
        · exact absurd h he
        · rw [hd] at h
          simp [exceptOk] at h
  · intro env st hi hs
    rcases st with ⟨i, sock⟩
    dsimp only at hi hs
    subst hi
    subst hs
    rfl
  · intro env st s hi hs
    rcases st with ⟨i, sock⟩
    dsimp only at hi hs
    subst hi
    subst hs
    rfl

/-- Witness for C9: with the once-flag set and no socket held, a later call
fails with the no-socket error even though NOTIFY_SOCKET is now set and a
dial would succeed. -/
theorem C9_sdnotify_latch_witness :
    Sd.SdNotify ⟨"/run/notify", .ok 3, fun _ => none⟩ ⟨true, none⟩ =
      (some Sd.SdNotifyNoSocket, ⟨true, none⟩, []) :=
  C9_sdnotify_latch.2.1 ⟨"/run/notify", .ok 3, fun _ => none⟩ ⟨true, none⟩ rfl rfl

/-! Lemmas for the stop-signal claim C5. -/

theorem lrun_closeStop_count (evs : List Lifecycle.LEvent) :
    ∀ s : Lifecycle.LState,
      (Lifecycle.lrun s evs).2.count Lifecycle.Act.closeStop =
        if s.stopping = false ∧ Lifecycle.LEvent.sig ∈ evs then 1 else 0 := by
  induction evs with
  | nil => intro s; simp [Lifecycle.lrun]
  | cons e rest ih =>
    intro s
    cases e with
    | sig =>
      by_cases hstop : s.stopping = true
      · simp [Lifecycle.lrun, Lifecycle.lstep, hstop, ih]
      · have hstop2 : s.stopping = false := Bool.eq_false_iff.mpr hstop
        simp [Lifecycle.lrun, Lifecycle.lstep, hstop2, ih, List.count_cons]
    | startedObs =>
      by_cases hst : s.started = true
      · simp [Lifecycle.lrun, Lifecycle.lstep, hst, ih]
      · have hst2 : s.started = false := Bool.eq_false_iff.mpr hst
        simp [Lifecycle.lrun, Lifecycle.lstep, hst2, ih, List.count_cons]
    | statusObs => simp [Lifecycle.lrun, Lifecycle.lstep, ih, List.count_cons]

theorem lrun_flags (evs : List Lifecycle.LEvent) :
    ∀ s : Lifecycle.LState, s.stopping = s.stopClosed →
      (Lifecycle.lrun s evs).1.stopping =
        (s.stopping || decide (Lifecycle.LEvent.sig ∈ evs)) ∧
      (Lifecycle.lrun s evs).1.stopClosed =
        (s.stopClosed || decide (Lifecycle.LEvent.sig ∈ evs)) := by
  induction evs with
  | nil => intro s hinv; simp [Lifecycle.lrun]
  | cons e rest ih =>
    intro s hinv
    cases e with
    | sig =>
      by_cases hstop : s.stopping = true
      · have h2 := ih s hinv
        simp [Lifecycle.lrun, Lifecycle.lstep, hstop, h2.1, h2.2, hstop ▸ hinv]
      · have hstop2 : s.stopping = false := Bool.eq_false_iff.mpr hstop
        have h2 := ih { s with stopping := true, stopClosed := true } rfl
        simp [Lifecycle.lrun, Lifecycle.lstep, hstop2, h2.1, h2.2]
    | startedObs =>
      by_cases hst : s.started = true
      · have h2 := ih s hinv
        simp [Lifecycle.lrun, Lifecycle.lstep, hst, h2.1, h2.2]
      · have hst2 : s.started = false := Bool.eq_false_iff.mpr hst
        have h2 := ih { s with started := true } hinv
        simp [Lifecycle.lrun, Lifecycle.lstep, hst2, h2.1, h2.2]
    | statusObs =>
      have h2 := ih s hinv
      simp [Lifecycle.lrun, Lifecycle.lstep, h2.1, h2.2]

/-- C5: from the initial supervisor state, any event sequence closes the stop
channel exactly once if it contains a signal and never otherwise (multiple
signals cause at most one stop); the stopping flag and channel-closed state
both equal whether a signal occurred, so stopping transitions false to true
at most once; and once closed the stop channel stays closed under any further
events, so every subsequent read observes it fired. -/
theorem C5_stop_signal_once (evs more : List Lifecycle.LEvent) :
    ((Lifecycle.lrun Lifecycle.initL evs).2.count Lifecycle.Act.closeStop =
      if Lifecycle.LEvent.sig ∈ evs then 1 else 0) ∧
    ((Lifecycle.lrun Lifecycle.initL evs).1.stopClosed =
      decide (Lifecycle.LEvent.sig ∈ evs)) ∧
    ((Lifecycle.lrun Lifecycle.initL evs).1.stopping =
      decide (Lifecycle.LEvent.sig ∈ evs)) ∧
    ((Lifecycle.lrun Lifecycle.initL evs).1.stopClosed = true →
      (Lifecycle.lrun Lifecycle.initL (evs ++ more)).1.stopClosed = true) ∧
    ((Lifecycle.lrun Lifecycle.initL evs).1.stopping = true →
      (Lifecycle.lrun Lifecycle.initL (evs ++ more)).1.stopping = true) := by
  have hc := lrun_closeStop_count evs Lifecycle.initL
  have hf := lrun_flags evs Lifecycle.initL rfl
  have hf2 := lrun_flags (evs ++ more) Lifecycle.initL rfl
  refine ⟨?_, ?_, ?_, ?_, ?_⟩
  · simpa [Lifecycle.initL] using hc
  · simpa [Lifecycle.initL] using hf.2
  · simpa [Lifecycle.initL] using hf.1
  · intro h
    rw [hf.2] at h
    rw [hf2.2]
    simp [Lifecycle.initL] at h ⊢
    exact Or.inl h
  · intro h
    rw [hf.1] at h
    rw [hf2.1]
    simp [Lifecycle.initL] at h ⊢
    exact Or.inl h

/-- Witness for C5: two signals followed by a status event close the stop
channel exactly once, and the closed state persists across further events. -/
theorem C5_stop_signal_once_witness :
    ((Lifecycle.lrun Lifecycle.initL
        [Lifecycle.LEvent.sig, Lifecycle.LEvent.sig, Lifecycle.LEvent.statusObs]).2.count
      Lifecycle.Act.closeStop = 1) ∧
    (Lifecycle.lrun Lifecycle.initL
        ([Lifecycle.LEvent.sig, Lifecycle.LEvent.sig, Lifecycle.LEvent.statusObs] ++
          [Lifecycle.LEvent.startedObs])).1.stopClosed = true := by
  have h := C5_stop_signal_once
    [Lifecycle.LEvent.sig, Lifecycle.LEvent.sig, Lifecycle.LEvent.statusObs]
    [Lifecycle.LEvent.startedObs]
  exact ⟨by rw [h.1]; decide, h.2.2.2.1 (by rw [h.2.1]; decide)⟩

/-- C10: duplicate SetStarted handling is asymmetric: on the unix supervisor
any interleaving of SetStarted calls and supervisor observations from a
dropped state never aborts and the started flag only latches (a call with a
token already pending is dropped, and an observation with the flag already
set is silently discarded); on the Windows service path a second started
notification observed by the loop panics. -/
theorem C10_set_started_asymmetry :
    (∀ (s : Lifecycle.UState) (ops : List Lifecycle.UOp),
      s.dropped = true →
      ∃ s1, Lifecycle.urun s ops = .ok s1 ∧ s1.dropped = true ∧
        (s.started = true → s1.started = true)) ∧
    (∀ s : Lifecycle.UState, s.dropped = true → s.startedSlot = true →
      Lifecycle.SetStartedU s = .ok s) ∧
    (∀ s : Lifecycle.UState, s.started = true →
      Lifecycle.obsStartedU s = .ok { s with startedSlot := false }) ∧
    (∀ w : Lifecycle.WState, w.started = true →
      Lifecycle.wObsStarted w = .panicked "must not call SetStarted() more than once") := by
  have hstep : ∀ (s : Lifecycle.UState) (op : Lifecycle.UOp), s.dropped = true →
      ∃ s2, Lifecycle.ustep s op = .ok s2 ∧ s2.dropped = true ∧
        (s.started = true → s2.started = true) := by
    intro s op hd
    cases op with
    | callSetStarted =>
      unfold Lifecycle.ustep Lifecycle.SetStartedU
      rw [if_neg (by simp [hd])]
      by_cases hslot : s.startedSlot = true
      · rw [if_neg (by simp [hslot])]
        exact ⟨s, rfl, hd, fun h => h⟩
      · rw [if_pos (by simp [Bool.eq_false_iff.mpr hslot])]
        exact ⟨_, rfl, hd, fun h => h⟩
    | observeStarted =>
      unfold Lifecycle.ustep Lifecycle.obsStartedU
      dsimp only
      by_cases hst : s.started = true
      · rw [if_neg (by simp [hst])]
        exact ⟨_, rfl, hd, fun _ => hst⟩
      · rw [if_pos (by simp [Bool.eq_false_iff.mpr hst])]
        exact ⟨_, rfl, hd, fun _ => rfl⟩
  refine ⟨?_, ?_, ?_, ?_⟩
  · intro s ops
    induction ops generalizing s with
    | nil => intro hd; exact ⟨s, rfl, hd, fun h => h⟩
    | cons op rest ih =>
      intro hd
      rcases hstep s op hd with ⟨s2, h1, h2, h3⟩
      rcases ih s2 h2 with ⟨s3, h4, h5, h6⟩
      refine ⟨s3, ?_, h5, fun h => h6 (h3 h)⟩
      unfold Lifecycle.urun
      rw [h1]
      exact h4
  · intro s hd hslot
    unfold Lifecycle.SetStartedU
    rw [if_neg (by simp [hd]), if_neg (by simp [hslot])]
  · intro s hst
    unfold Lifecycle.obsStartedU
    rw [if_neg (by simp [hst])]
  · intro w hst
    unfold Lifecycle.wObsStarted
    rw [if_pos hst]

/-- Witness for C10: a concrete run with a duplicate SetStarted and duplicate
observation succeeds on unix, while the Windows loop panics on a second
observed start. -/
theorem C10_set_started_asymmetry_witness :
    (∃ s1, Lifecycle.urun ⟨true, false, false⟩
        [.callSetStarted, .observeStarted, .callSetStarted, .observeStarted] =
          .ok s1 ∧ s1.dropped = true ∧ (false = true → s1.started = true)) ∧
    Lifecycle.wObsStarted ⟨true, false⟩ =
      .panicked "must not call SetStarted() more than once" :=
  ⟨C10_set_started_asymmetry.1 ⟨true, false, false⟩
      [.callSetStarted, .observeStarted, .callSetStarted, .observeStarted] rfl,
   C10_set_started_asymmetry.2.2.2 ⟨true, false⟩ rfl⟩

/-! Lemmas for the argv-sentinel claim C8. -/

theorem Fork_spawn_shape (absExe : String) (args : List String)
    (ha : absExe ≠ Daemon.forkedArg) (hn : Daemon.forkedArg ∉ args) :
    ∀ spawned, Daemon.Fork absExe args = .parent spawned →
      spawned.getLast? = some Daemon.forkedArg ∧
      Daemon.forkedArg ∉ spawned.dropLast := by
  intro spawned hsp
  unfold Daemon.Fork at hsp
  rw [if_neg ?hlast] at hsp
  case hlast =>
    intro h
    exact hn (List.mem_of_getLast?_eq_some h)
  injection hsp with hsp
  subst hsp
  constructor
  · rw [List.getLast?_concat]
  · rw [List.dropLast_concat]
    simp only [List.mem_cons]
    rintro (h | h)
    · exact ha h.symm
    · exact hn (List.mem_of_mem_tail h)

theorem forkRound_no_sentinel (absExe : String) (args : List String)
    (ha : absExe ≠ Daemon.forkedArg) (hn : Daemon.forkedArg ∉ args) :
    Daemon.forkedArg ∉ Daemon.forkRound absExe args := by
  unfold Daemon.forkRound
  cases hf : Daemon.Fork absExe args with
  | child a =>
    unfold Daemon.Fork at hf
    split at hf
    · injection hf with hf
      subst hf
      intro h
      exact hn (List.dropLast_subset _ h)
    · exact absurd hf (by simp)
  | parent spawned =>
    rcases Fork_spawn_shape absExe args ha hn spawned hf with ⟨h1, h2⟩
    have hf2 : Daemon.Fork absExe spawned = .child spawned.dropLast := by
      unfold Daemon.Fork
      rw [if_pos h1]
    dsimp only
    rw [hf2]
    exact h2

/-- C8 counterexample: an initial argv already containing the sentinel in a
non-final position is spawned with the sentinel appended, and the child
strips only the trailing copy, so the payload observes an argv that still
contains the sentinel. -/
theorem C8_counterexample :
    Daemon.Fork "/bin/prog" ["prog", Daemon.forkedArg, "x"] =
      .parent ["/bin/prog", Daemon.forkedArg, "x", Daemon.forkedArg] ∧
    Daemon.Fork "/bin/prog"
        ["/bin/prog", Daemon.forkedArg, "x", Daemon.forkedArg] =
      .child ["/bin/prog", Daemon.forkedArg, "x"] ∧
    Daemon.forkedArg ∈ (["/bin/prog", Daemon.forkedArg, "x"] : List String) := by
  decide

/-- C8 amended: for every initial argv that does not itself contain the
sentinel (and an absolute exe path distinct from it), after any number of
fork round trips the payload-visible argv never contains the sentinel, and
every spawned argv carries exactly one trailing sentinel (its last element is
the sentinel and the sentinel occurs nowhere before it). -/
theorem C8_fork_sentinel (absExe : String) (args : List String)
    (ha : absExe ≠ Daemon.forkedArg) (hn : Daemon.forkedArg ∉ args) (n : Nat) :
    (Daemon.forkedArg ∉ (Daemon.forkRound absExe)^[n] args) ∧
    (∀ spawned,
      Daemon.Fork absExe ((Daemon.forkRound absExe)^[n] args) = .parent spawned →
      spawned.getLast? = some Daemon.forkedArg ∧
      Daemon.forkedArg ∉ spawned.dropLast) := by
  induction n with
  | zero => exact ⟨hn, Fork_spawn_shape absExe args ha hn⟩
  | succ m ih =>
    have h1 : Daemon.forkedArg ∉ (Daemon.forkRound absExe)^[m + 1] args := by
      rw [Function.iterate_succ_apply']
      exact forkRound_no_sentinel absExe _ ha ih.1
    exact ⟨h1, Fork_spawn_shape absExe _ ha h1⟩

/-- Witness for C8: a concrete sentinel-free argv stays sentinel-free after a
fork round trip, and its spawn carries exactly one trailing sentinel. -/
theorem C8_fork_sentinel_witness :
    Daemon.forkedArg ∉ (Daemon.forkRound "/bin/prog")^[1] ["prog", "-x"] ∧
    (∀ spawned,
      Daemon.Fork "/bin/prog" ((Daemon.forkRound "/bin/prog")^[1] ["prog", "-x"]) =
        .parent spawned →
      spawned.getLast? = some Daemon.forkedArg ∧
      Daemon.forkedArg ∉ spawned.dropLast) :=
  C8_fork_sentinel "/bin/prog" ["prog", "-x"] (by decide) (by decide) 1

end Service

